import Mathlib

/-!
Verification of the VPK selective-extraction core of the cs2-assets repository.

The definitions below are a shallow embedding of the JavaScript source:

* `getRequiredVPKArchives`, `processVPKFiles`, `extractWithSource2Viewer` embed
  the methods of the same names in `src/streamingExtractor.js`
  (class `StreamingVPKProcessor`).
* `runDepotDownloader` embeds the retry loop of `DepotDownloader.runDepotDownloader`.
* `getLatestManifestId` embeds `DepotDownloader.getLatestManifestId`, with the
  five regex patterns modelled as literal-prefix / digit-run / literal-suffix
  scanners (case-insensitive, leftmost match, as JavaScript `String.match` does).
* `classifyExtractError` embeds the disk-space detection of
  `extractImagesFromVPK` in `src/vpkExtractor.js`.

External collaborators (the DepotDownloader process, Source2Viewer, the
filesystem) are represented by an environment `Env` recording the outcome each
collaborator call would report; the orchestrator additionally emits a trace of
`Event`s so that call counts, call order and the scoped cleanup can be stated.
-/

/-- One value of the vpk library's `tree[fileName]` object: the code only reads
its `archiveIndex` field, and only tests it against `undefined` (modelled as
`none`). -/
structure FileInfo where
  archiveIndex : Option Nat
deriving DecidableEq

/-- The loaded VPK directory: the `files` array of logical paths and the
`tree` dictionary from logical path to file info, as the vpk library exposes
them to `getRequiredVPKArchives`. -/
structure VpkDir where
  files : List String
  tree : List (String × FileInfo)
deriving DecidableEq

/-- Outcome of one DepotDownloader wrapper call (`downloadSpecificFiles` or
`downloadMultipleFiles`): the `success` flag and the `error` text the wrapper
returns. -/
structure DLOutcome where
  success : Bool
  error : String
deriving DecidableEq

/-- Outcome of one `source2Viewer.extractVPKFolder` invocation. -/
structure ExtOutcome where
  success : Bool
  error : String
deriving DecidableEq

/-- The `this.results` object of `StreamingVPKProcessor`. -/
structure RunResults where
  downloaded : Nat
  extracted : Nat
  failed : Nat
  errors : List (String × String)
deriving DecidableEq

/-- Environment of collaborator outcomes for one `processVPKFiles` run:
what the directory fetch reports, whether `findVPKDirFile` locates the
directory file, the loaded directory, what the batched archive fetch reports,
the per-folder Source2Viewer outcome, and how many PNG files
`findExtractedImages` finds. -/
structure Env where
  dirResult : DLOutcome
  vpkDirFound : Bool
  vpkDir : VpkDir
  batchResult : DLOutcome
  folderResult : String → ExtOutcome
  extractedImages : Nat

/-- Observable actions of one orchestrator run: the directory-file fetch, each
batched archive fetch (with its file patterns), each per-folder Source2Viewer
invocation, and the `finally`-block cleanup of the scratch directory. -/
inductive Event where
  | fetchDir : Event
  | batchCall : List String → Event
  | extractCall : String → Event
  | cleanup : Event
deriving DecidableEq

deriving instance DecidableEq for Except

/-- Result of a run: the value returned (or the message of the error thrown)
by `processVPKFiles`, together with the emitted event trace. -/
structure ProcOut where
  outcome : Except String RunResults
  events : List Event
deriving DecidableEq

/-- JavaScript `s.startsWith(pre)`: the characters of `pre` are a prefix of
the characters of `s`.  (Stated over the character lists so that the kernel
can evaluate it on concrete inputs.) -/
def jsStartsWith (s pre : String) : Bool :=
  pre.data.isPrefixOf s.data

/-- JavaScript `fileName.startsWith(folder)` over the selector list:
true iff some selector is a prefix of the file name. -/
def matchesAnyFolder (folders : List String) (fileName : String) : Bool :=
  folders.any (fun folder => jsStartsWith fileName folder)

/-- JavaScript `Set.add`: append the index unless already present
(insertion order preserved). -/
def addIndex (acc : List Nat) (i : Nat) : List Nat :=
  if i ∈ acc then acc else acc ++ [i]

/-- One iteration of the entry loop of `getRequiredVPKArchives`
(`streamingExtractor.js` lines 113-123): if the file name starts with some
target folder, look the name up in the tree and, when the entry exists and its
`archiveIndex` is not `undefined`, add that index to the working set. -/
def stepAcc (folders : List String) (tree : List (String × FileInfo))
    (fileName : String) (acc : List Nat) : List Nat :=
  if matchesAnyFolder folders fileName then
    match tree.lookup fileName with
    | some info =>
      match info.archiveIndex with
      | some i => addIndex acc i
      | none => acc
    | none => acc
  else acc

/-- The entry loop of `getRequiredVPKArchives` over the `files` array. -/
def collectIndices (folders : List String) (tree : List (String × FileInfo)) :
    List String → List Nat → List Nat
  | [], acc => acc
  | fileName :: rest, acc =>
    collectIndices folders tree rest (stepAcc folders tree fileName acc)

/-- `StreamingVPKProcessor.getRequiredVPKArchives`
(`streamingExtractor.js` lines 109-129): collect the archive indices of all
entries matching a target folder, then sort ascending
(`Array.from(set).sort((a, b) => a - b)`). -/
def getRequiredVPKArchives (dir : VpkDir) (folders : List String) : List Nat :=
  List.insertionSort (· ≤ ·) (collectIndices folders dir.tree dir.files [])

/-- JavaScript `archiveIndex.toString().padStart(3, "0")`. -/
def pad3 (n : Nat) : String :=
  let s := toString n
  String.mk (List.replicate (3 - s.length) '0') ++ s

/-- The per-archive file pattern built in `downloadRequiredArchives`
(`streamingExtractor.js` lines 181-184). -/
def archivePattern (i : Nat) : String :=
  "csgo/pak01_" ++ pad3 i ++ "\\.vpk"

/-- Result of `extractWithSource2Viewer`: overall success flag, overall error,
and the per-folder outcome list (`details`). -/
structure ExtractStageResult where
  success : Bool
  error : Option String
  details : List ExtOutcome
deriving DecidableEq

/-- `StreamingVPKProcessor.extractWithSource2Viewer`
(`streamingExtractor.js` lines 215-259): invoke Source2Viewer once per target
folder in listed order, push every outcome, and report overall success iff at
least one folder extracted successfully. -/
def extractWithSource2Viewer (env : Env) (folders : List String) :
    ExtractStageResult :=
  let details := folders.map env.folderResult
  let successfulExtractions := details.countP (fun r => r.success)
  ⟨decide (0 < successfulExtractions),
    if successfulExtractions = 0 then some ("No folders could be extracted")
    else none,
    details⟩

/-- The `try` body of `StreamingVPKProcessor.processVPKFiles`
(`streamingExtractor.js` lines 32-102), returning the result or thrown error
together with the collaborator-call trace. -/
def processBody (env : Env) (folders : List String) :
    Except String RunResults × List Event :=
  if env.dirResult.success then
    if env.vpkDirFound then
      let requiredArchives := getRequiredVPKArchives env.vpkDir folders
      if requiredArchives.length = 0 then
        (Except.ok ⟨0, 0, 0, []⟩, [Event.fetchDir])
      else
        let patterns := requiredArchives.map archivePattern
        if env.batchResult.success then
          let stage := extractWithSource2Viewer env folders
          let results : RunResults :=
            if stage.success then
              ⟨requiredArchives.length, env.extractedImages, 0, []⟩
            else ⟨0, 0, 1, []⟩
          (Except.ok results,
            [Event.fetchDir, Event.batchCall patterns] ++
              folders.map Event.extractCall)
        else
          (Except.error ("Failed to batch download VPK archives: " ++
              env.batchResult.error),
            [Event.fetchDir, Event.batchCall patterns])
    else
      (Except.error ("Could not find pak01_dir.vpk file"), [Event.fetchDir])
  else
    (Except.error ("Failed to download VPK directory: " ++
        env.dirResult.error),
      [Event.fetchDir])

/-- `StreamingVPKProcessor.processVPKFiles`: the `try` body followed by the
`finally` block's `cleanup()` (`streamingExtractor.js` lines 103-106), which
runs on every exit path. -/
def processVPKFiles (env : Env) (folders : List String) : ProcOut :=
  let r := processBody env folders
  ⟨r.1, r.2 ++ [Event.cleanup]⟩

/-- Projection selecting batched-fetch events and their pattern lists. -/
def batchPatterns : Event → Option (List String)
  | Event.batchCall ps => some ps
  | _ => none

/-- Projection selecting per-folder extraction events and their folder. -/
def extractFolder : Event → Option String
  | Event.extractCall f => some f
  | _ => none

/-- Recogniser for batched-fetch events. -/
def isBatchCall : Event → Bool
  | Event.batchCall _ => true
  | _ => false

/-- Recogniser for cleanup events. -/
def isCleanup : Event → Bool
  | Event.cleanup => true
  | _ => false

/-- Result of `runDepotDownloader`: the single success/failure outcome returned
to the caller, the backoff waits performed (in order), and how many attempts
were made. -/
structure DDResult where
  success : Bool
  waits : List Nat
  attempts : Nat
deriving DecidableEq

/-- The backoff computed before retrying a failed attempt
(`depotDownloader` wrapper, `runDepotDownloader`):
`Math.min(30000 * Math.pow(2, attempt - 1), 120000)`. -/
def backoffTime (attempt : Nat) : Nat :=
  min (30000 * 2 ^ (attempt - 1)) 120000

/-- The attempt loop of `DepotDownloader.runDepotDownloader`: `fuel` counts the
attempts still allowed, so the attempt being made is
`maxAttempts - fuel + 1`.  A successful attempt returns immediately; a failed
non-final attempt waits `backoffTime attempt` and retries; exhausting all
attempts returns failure (`Max attempts exceeded`). -/
def ddLoop (outcome : Nat → Bool) (maxAttempts : Nat) : Nat → DDResult
  | 0 => ⟨false, [], 0⟩
  | fuel + 1 =>
    let attempt := maxAttempts - fuel
    if outcome attempt then ⟨true, [], 1⟩
    else if 0 < fuel then
      let rest := ddLoop outcome maxAttempts fuel
      ⟨rest.success, backoffTime attempt :: rest.waits, rest.attempts + 1⟩
    else ⟨false, [], 1⟩

/-- `DepotDownloader.runDepotDownloader` with a given `maxAttempts`, driven by
the per-attempt outcome of the spawned process.  Every download operation of
the wrapper passes `maxAttempts = this.downloadAttempts`, which defaults to 3
and is set to 3 in `src/index.js`. -/
def runDepotDownloader (outcome : Nat → Bool) (maxAttempts : Nat) : DDResult :=
  ddLoop outcome maxAttempts maxAttempts

/-- Auxiliary scan for `jsIncludes`: `sub` occurs somewhere in the list. -/
def containsSub (sub : List Char) : List Char → Bool
  | [] => sub.isEmpty
  | c :: cs => sub.isPrefixOf (c :: cs) || containsSub sub cs

/-- JavaScript `String.prototype.includes`: `sub` occurs in `s` as a
contiguous substring. -/
def jsIncludes (s sub : String) : Bool :=
  containsSub sub.data s.data

/-- The disk-space detection of `extractImagesFromVPK`
(`src/vpkExtractor.js` lines 116-125): when a write error's text contains
`ENOSPC` or `No space left`, the function aborts by throwing the disk-space
message; otherwise the error is recorded per-file and processing continues
(modelled by `none`).  This is the only disk-exhaustion classification in the
repository, and `extractImagesFromVPK` is not called by the orchestrator. -/
def classifyExtractError (fileName msg : String) : Option String :=
  if jsIncludes msg ("ENOSPC") || jsIncludes msg ("No space left") then
    some ("Disk space exhausted while extracting " ++ fileName ++
      ". Consider running locally or increasing runner disk space.")
  else none

/-- Case-insensitive comparison of two characters, as a JavaScript `i`-flagged
regex performs on literal pattern characters. -/
def lowerEq (a b : Char) : Bool :=
  a.toLower == b.toLower

/-- Drop a literal pattern from the front of the input, case-insensitively;
`none` when the input does not start with the pattern. -/
def ciDrop : List Char → List Char → Option (List Char)
  | [], s => some s
  | _ :: _, [] => none
  | p :: ps, c :: cs => if lowerEq p c then ciDrop ps cs else none

/-- Whitespace characters matched by the regex class `\s` (the subset relevant
to tool output). -/
def isWsChar (c : Char) : Bool :=
  c == ' ' || c == '\t' || c == '\n' || c == '\r' || c == '\x0b' || c == '\x0c'

/-- One manifest-ID pattern of `getLatestManifestId`: a literal prefix, an
optional `\s*` gap, a captured digit run `(\d+)`, and a literal suffix, all
matched case-insensitively. -/
structure ManifestPattern where
  pre : List Char
  skipWs : Bool
  post : List Char

/-- Match one pattern at the current position: the literal prefix, then the
optional whitespace gap, then a non-empty maximal digit run (the capture),
then the literal suffix.  Since no suffix used by the source starts with a
digit, the maximal run coincides with the backtracking semantics of `\d+`. -/
def matchPatternAt (pat : ManifestPattern) (s : List Char) :
    Option (List Char) :=
  match ciDrop pat.pre s with
  | none => none
  | some r1 =>
    let r2 := if pat.skipWs then r1.dropWhile isWsChar else r1
    let ds := r2.takeWhile Char.isDigit
    if ds.isEmpty then none
    else
      match ciDrop pat.post (r2.dropWhile Char.isDigit) with
      | none => none
      | some _ => some ds

/-- Leftmost match of one pattern in the output, as JavaScript
`String.prototype.match` finds it. -/
def searchPattern (pat : ManifestPattern) : List Char → Option (List Char)
  | [] => matchPatternAt pat []
  | c :: cs =>
    match matchPatternAt pat (c :: cs) with
    | some ds => some ds
    | none => searchPattern pat cs

/-- The five regex patterns tried in order by `getLatestManifestId`
(`depotDownloader` wrapper, lines 428-434); with the `i` flag the second and
fourth repeat the first and third. -/
def manifestPatterns : List ManifestPattern :=
  [⟨("Manifest ").data, false, (" (").data⟩,
   ⟨("manifest ").data, false, (" (").data⟩,
   ⟨("Manifest ID: ").data, false, []⟩,
   ⟨("manifest id: ").data, false, []⟩,
   ⟨("manifest:").data, true, []⟩]

/-- First capture produced by the pattern list, trying patterns in order. -/
def firstManifestMatch : List ManifestPattern → List Char → Option (List Char)
  | [], _ => none
  | p :: ps, s =>
    match searchPattern p s with
    | some ds => some ds
    | none => firstManifestMatch ps s

/-- Result of the `-manifest-only` DepotDownloader run as seen by
`getLatestManifestId`: the success flag, the accumulated process output, and
the error field (absent on success). -/
structure CmdResult where
  success : Bool
  output : String
  error : Option String

/-- `DepotDownloader.getLatestManifestId` after the command run
(lines 423-455): on success, return the first capture group of the first
matching pattern; if no pattern matches, or the command failed after its
retries, throw `Failed to get manifest ID: ...`. -/
def getLatestManifestId (result : CmdResult) : Except String String :=
  if result.success then
    match firstManifestMatch manifestPatterns result.output.data with
    | some ds => Except.ok (String.mk ds)
    | none =>
      Except.error ("Failed to get manifest ID: " ++
        result.error.getD ("Could not parse manifest ID from output"))
  else
    Except.error ("Failed to get manifest ID: " ++
      result.error.getD ("Could not parse manifest ID from output"))

lemma mem_addIndex (acc : List Nat) (i a : Nat) :
    a ∈ addIndex acc i ↔ a ∈ acc ∨ a = i := by
  unfold addIndex
  by_cases h : i ∈ acc
  · simp only [if_pos h]
    exact ⟨Or.inl, fun hc => hc.elim id (fun e => e ▸ h)⟩
  · simp [if_neg h]

lemma nodup_addIndex (acc : List Nat) (i : Nat) (h : acc.Nodup) :
    (addIndex acc i).Nodup := by
  unfold addIndex
  by_cases hi : i ∈ acc
  · simpa [if_pos hi]
  · simp [if_neg hi, List.nodup_append, h, hi]

lemma mem_stepAcc (folders : List String) (tree : List (String × FileInfo))
    (p : String) (acc : List Nat) (a : Nat) :
    a ∈ stepAcc folders tree p acc ↔
      a ∈ acc ∨ (matchesAnyFolder folders p = true ∧
        ∃ info, tree.lookup p = some info ∧ info.archiveIndex = some a) := by
  unfold stepAcc
  by_cases hm : matchesAnyFolder folders p
  · cases hl : tree.lookup p with
    | none => simp [hm, hl]
    | some info =>
      cases hi : info.archiveIndex with
      | none => simp [hm, hl, hi]
      | some i =>
        simp only [hm, if_pos, hl, hi, mem_addIndex, true_and]
        constructor
        · rintro (h | rfl)
          · exact Or.inl h
          · exact Or.inr ⟨info, rfl, hi⟩
        · rintro (h | ⟨info2, heq, hidx⟩)
          · exact Or.inl h
          · cases heq
            rw [hi] at hidx
            cases hidx
            exact Or.inr rfl
  · simp [hm]

lemma nodup_stepAcc (folders : List String) (tree : List (String × FileInfo))
    (p : String) (acc : List Nat) (h : acc.Nodup) :
    (stepAcc folders tree p acc).Nodup := by
  unfold stepAcc
  by_cases hm : matchesAnyFolder folders p
  · cases hl : tree.lookup p with
    | none => simpa [hm, hl]
    | some info =>
      cases hi : info.archiveIndex with
      | none => simpa [hm, hl, hi]
      | some i => simpa [hm, hl, hi] using nodup_addIndex acc i h
  · simpa [hm]

lemma mem_collectIndices (folders : List String)
    (tree : List (String × FileInfo)) (files : List String) :
    ∀ (acc : List Nat) (a : Nat),
      a ∈ collectIndices folders tree files acc ↔
        a ∈ acc ∨ ∃ p ∈ files, matchesAnyFolder folders p = true ∧
          ∃ info, tree.lookup p = some info ∧ info.archiveIndex = some a := by
  induction files with
  | nil => intro acc a; simp [collectIndices]
  | cons q rest ih =>
    intro acc a
    rw [collectIndices, ih, mem_stepAcc]
    simp only [List.mem_cons]
    constructor
    · rintro ((h | h) | ⟨p, hp, hc⟩)
      · exact Or.inl h
      · exact Or.inr ⟨q, Or.inl rfl, h⟩
      · exact Or.inr ⟨p, Or.inr hp, hc⟩
    · rintro (h | ⟨p, (rfl | hp), hc⟩)
      · exact Or.inl (Or.inl h)
      · exact Or.inl (Or.inr hc)
      · exact Or.inr ⟨p, hp, hc⟩

lemma nodup_collectIndices (folders : List String)
    (tree : List (String × FileInfo)) (files : List String) :
    ∀ acc : List Nat, acc.Nodup → (collectIndices folders tree files acc).Nodup := by
  induction files with
  | nil => intro acc h; simpa [collectIndices]
  | cons q rest ih =>
    intro acc h
    rw [collectIndices]
    exact ih _ (nodup_stepAcc folders tree q acc h)

lemma sorted_le_getRequiredVPKArchives (dir : VpkDir) (folders : List String) :
    (getRequiredVPKArchives dir folders).Sorted (· ≤ ·) :=
  List.sorted_insertionSort _ _

lemma nodup_getRequiredVPKArchives (dir : VpkDir) (folders : List String) :
    (getRequiredVPKArchives dir folders).Nodup :=
  ((List.perm_insertionSort _ _).nodup_iff).mpr
    (nodup_collectIndices folders dir.tree dir.files [] List.nodup_nil)

lemma mem_getRequiredVPKArchives (dir : VpkDir) (folders : List String)
    (i : Nat) :
    i ∈ getRequiredVPKArchives dir folders ↔
      ∃ p ∈ dir.files, (∃ s ∈ folders, jsStartsWith p s = true) ∧
        ∃ info, dir.tree.lookup p = some info ∧ info.archiveIndex = some i := by
  unfold getRequiredVPKArchives
  rw [(List.perm_insertionSort _ _).mem_iff,
    mem_collectIndices folders dir.tree dir.files [] i]
  simp only [List.not_mem_nil, false_or]
  unfold matchesAnyFolder
  simp [List.any_eq_true]

lemma sorted_lt_of_le_nodup {l : List Nat}
    (h1 : l.Sorted (· ≤ ·)) (h2 : l.Nodup) : l.Sorted (· < ·) := by
  unfold List.Sorted at h1 ⊢
  exact (h1.and h2).imp (fun h => lt_of_le_of_ne h.1 h.2)

/-- Claim C1: for every directory and selector list, `getRequiredVPKArchives`
returns the indices in strictly ascending order with no duplicates, and an
index is returned exactly when some file of the directory whose logical path
starts with some selector has that index as its non-sentinel `archiveIndex`
(the sentinel being the `undefined` archive index, modelled as `none`). -/
theorem planner_shard_set_correct (dir : VpkDir) (folders : List String) :
    (getRequiredVPKArchives dir folders).Sorted (· < ·) ∧
      ∀ i : Nat, i ∈ getRequiredVPKArchives dir folders ↔
        ∃ p ∈ dir.files, (∃ s ∈ folders, jsStartsWith p s = true) ∧
          ∃ info, dir.tree.lookup p = some info ∧
            info.archiveIndex = some i := by
  refine ⟨sorted_lt_of_le_nodup (sorted_le_getRequiredVPKArchives dir folders)
    (nodup_getRequiredVPKArchives dir folders), ?_⟩
  exact mem_getRequiredVPKArchives dir folders

/-- Claim C2: permuting the selector list never changes the planned shard set,
and the planned list never repeats an index. -/
theorem planner_selector_order_irrelevant (dir : VpkDir)
    (S1 S2 : List String) (h : S1.Perm S2) :
    getRequiredVPKArchives dir S1 = getRequiredVPKArchives dir S2 ∧
      (getRequiredVPKArchives dir S1).Nodup := by
  refine ⟨?_, nodup_getRequiredVPKArchives dir S1⟩
  apply List.eq_of_perm_of_sorted ?_ (sorted_le_getRequiredVPKArchives dir S1)
    (sorted_le_getRequiredVPKArchives dir S2)
  rw [List.perm_ext_iff_of_nodup (nodup_getRequiredVPKArchives dir S1)
    (nodup_getRequiredVPKArchives dir S2)]
  intro a
  rw [mem_getRequiredVPKArchives, mem_getRequiredVPKArchives]
  constructor
  · rintro ⟨p, hp, ⟨s, hs, hsw⟩, rest⟩
    exact ⟨p, hp, ⟨s, h.mem_iff.mp hs, hsw⟩, rest⟩
  · rintro ⟨p, hp, ⟨s, hs, hsw⟩, rest⟩
    exact ⟨p, hp, ⟨s, h.mem_iff.mpr hs, hsw⟩, rest⟩

/-- Directory used by the concrete planner instantiations. -/
def dirC2 : VpkDir :=
  ⟨["a/x", "b/y"], [("a/x", ⟨some 2⟩), ("b/y", ⟨some 0⟩)]⟩

theorem planner_selector_order_irrelevant_witness :
    getRequiredVPKArchives dirC2 ["a/", "b/"] =
        getRequiredVPKArchives dirC2 ["b/", "a/"] ∧
      (getRequiredVPKArchives dirC2 ["a/", "b/"]).Nodup :=
  planner_selector_order_irrelevant dirC2 ["a/", "b/"] ["b/", "a/"]
    (List.Perm.swap ("b/") ("a/") [])

lemma filterMap_batchPatterns_extract (l : List String) :
    (l.map Event.extractCall).filterMap batchPatterns = [] := by
  induction l with
  | nil => rfl
  | cons x xs ih => simp [List.filterMap_cons, batchPatterns, ih]

lemma filterMap_extractFolder_extract (l : List String) :
    (l.map Event.extractCall).filterMap extractFolder = l := by
  induction l with
  | nil => rfl
  | cons x xs ih => simp [List.filterMap_cons, extractFolder, ih]

lemma filterMap_extractFolder_comp (l : List String) :
    l.filterMap (extractFolder ∘ Event.extractCall) = l := by
  induction l with
  | nil => rfl
  | cons x xs ih => simp [List.filterMap_cons, extractFolder, ih]

lemma countP_isBatchCall_extract (l : List String) :
    (l.map Event.extractCall).countP isBatchCall = 0 := by
  induction l with
  | nil => rfl
  | cons x xs ih => simp [List.countP_cons, isBatchCall, ih]

lemma countP_isCleanup_extract (l : List String) :
    (l.map Event.extractCall).countP isCleanup = 0 := by
  induction l with
  | nil => rfl
  | cons x xs ih => simp [List.countP_cons, isCleanup, ih]

/-- Claim C3: when the selector list is empty or no directory entry matches
any selector, the planner returns the empty shard set and `processVPKFiles`
returns normally with zero downloaded, zero extracted, zero failed and an
empty error list, rather than failing. -/
theorem empty_plan_is_success (env : Env) (folders : List String)
    (h1 : env.dirResult.success = true) (h2 : env.vpkDirFound = true)
    (h3 : folders = [] ∨
      ∀ p ∈ env.vpkDir.files, ∀ s ∈ folders, jsStartsWith p s = false) :
    getRequiredVPKArchives env.vpkDir folders = [] ∧
      (processVPKFiles env folders).outcome =
        Except.ok ⟨0, 0, 0, []⟩ := by
  have hplan : getRequiredVPKArchives env.vpkDir folders = [] := by
    rw [List.eq_nil_iff_forall_not_mem]
    intro i hi
    rw [mem_getRequiredVPKArchives] at hi
    obtain ⟨p, hp, ⟨s, hs, hsw⟩, -⟩ := hi
    rcases h3 with h3 | h3
    · rw [h3] at hs
      exact absurd hs (List.not_mem_nil s)
    · rw [h3 p hp s hs] at hsw
      exact Bool.false_ne_true hsw
  refine ⟨hplan, ?_⟩
  simp [processVPKFiles, processBody, h1, h2, hplan]

/-- Environment used to instantiate claim C3: the directory fetch succeeds,
the directory file is found, but no entry matches the selector. -/
def envC3 : Env :=
  ⟨⟨true, ""⟩, true, ⟨["a/x"], [("a/x", ⟨some 0⟩)]⟩, ⟨true, ""⟩,
    fun _ => ⟨true, ""⟩, 0⟩

theorem empty_plan_is_success_witness :
    getRequiredVPKArchives envC3.vpkDir ["z/"] = [] ∧
      (processVPKFiles envC3 ["z/"]).outcome = Except.ok ⟨0, 0, 0, []⟩ :=
  empty_plan_is_success envC3 ["z/"] rfl rfl (Or.inr (by decide))

/-- Claim C4: once the run reaches the shard-fetch stage (directory fetched
and located, plan non-empty), the orchestrator performs exactly one batched
fetch whose pattern list has one `pak01_NNN.vpk` pattern per planned index,
and a failed batched fetch makes the whole run fail with the batch error,
without any per-shard retry by the orchestrator. -/
theorem single_batched_fetch (env : Env) (folders : List String)
    (h1 : env.dirResult.success = true) (h2 : env.vpkDirFound = true)
    (h3 : getRequiredVPKArchives env.vpkDir folders ≠ []) :
    (processVPKFiles env folders).events.filterMap batchPatterns =
        [(getRequiredVPKArchives env.vpkDir folders).map archivePattern] ∧
      (env.batchResult.success = false →
        (processVPKFiles env folders).outcome =
          Except.error ("Failed to batch download VPK archives: " ++
            env.batchResult.error)) := by
  have hlen : ¬ (getRequiredVPKArchives env.vpkDir folders).length = 0 := by
    simpa [List.length_eq_zero] using h3
  constructor
  · cases hb : env.batchResult.success with
    | false =>
      simp [processVPKFiles, processBody, h1, h2, hlen, hb,
        List.filterMap_cons, batchPatterns]
    | true =>
      simp [processVPKFiles, processBody, h1, h2, hlen, hb,
        List.filterMap_cons, List.filterMap_append, batchPatterns,
        filterMap_batchPatterns_extract]
  · intro hb
    simp [processVPKFiles, processBody, h1, h2, hlen, hb]

/-- Environment used to instantiate claim C4: a non-empty plan whose batched
fetch fails. -/
def envC4 : Env :=
  ⟨⟨true, ""⟩, true, ⟨["a/x"], [("a/x", ⟨some 0⟩)]⟩, ⟨false, "net down"⟩,
    fun _ => ⟨true, ""⟩, 0⟩

theorem single_batched_fetch_witness :
    (processVPKFiles envC4 ["a/"]).events.filterMap batchPatterns =
        [(getRequiredVPKArchives envC4.vpkDir ["a/"]).map archivePattern] ∧
      (envC4.batchResult.success = false →
        (processVPKFiles envC4 ["a/"]).outcome =
          Except.error ("Failed to batch download VPK archives: " ++
            envC4.batchResult.error)) :=
  single_batched_fetch envC4 ["a/"] rfl rfl (by decide)

lemma countP_split {α : Type} (p : α → Bool) (l : List α) :
    l.countP p + l.countP (fun a => !(p a)) = l.length := by
  induction l with
  | nil => rfl
  | cons x xs ih =>
    cases hx : p x <;>
      simp [List.countP_cons, hx, ← ih] <;> omega

/-- Environment used for claim C5: two selectors, the first one failing in
Source2Viewer, everything before the extraction stage succeeding. -/
def envC5 : Env :=
  ⟨⟨true, ""⟩, true, ⟨["a/x", "b/y"], [("a/x", ⟨some 0⟩), ("b/y", ⟨some 1⟩)]⟩,
    ⟨true, ""⟩,
    fun f => if f = "a/" then ⟨false, "Process exited with code 1"⟩
      else ⟨true, ""⟩, 7⟩

theorem one_selector_failure_counterexample :
    ((envC5.folderResult ("a/")).success = false) ∧
      ((envC5.folderResult ("b/")).success = true) ∧
      ((extractWithSource2Viewer envC5 ["a/", "b/"]).details.countP
          (fun r => !r.success) = 1) ∧
      ((processVPKFiles envC5 ["a/", "b/"]).outcome =
        Except.ok ⟨2, 7, 0, []⟩) := by
  decide

/-- Claim C5 as amended: once the run reaches the extraction stage, the
decompiler is invoked once per selector in listed order even when one of them
fails; with N > 1 selectors of which exactly one fails, the extraction stage
still reports overall success and its outcome list holds N - 1 successes, but
the failure is recorded only positionally in that list (no entry names the
failed selector) and the returned run result has a zero failed counter and an
empty error list. -/
theorem one_selector_failure_amended (env : Env) (folders : List String)
    (h1 : env.dirResult.success = true) (h2 : env.vpkDirFound = true)
    (h3 : getRequiredVPKArchives env.vpkDir folders ≠ [])
    (h4 : env.batchResult.success = true)
    (h5 : folders.countP (fun f => !(env.folderResult f).success) = 1)
    (h6 : 1 < folders.length) :
    ((processVPKFiles env folders).events.filterMap extractFolder = folders) ∧
      ((extractWithSource2Viewer env folders).success = true) ∧
      ((extractWithSource2Viewer env folders).details.countP
          (fun r => r.success) = folders.length - 1) ∧
      ∃ r : RunResults, (processVPKFiles env folders).outcome = Except.ok r ∧
        r.failed = 0 ∧ r.errors = [] := by
  have hlen : ¬ (getRequiredVPKArchives env.vpkDir folders).length = 0 := by
    simpa [List.length_eq_zero] using h3
  have hcount : (folders.map env.folderResult).countP (fun r => r.success) =
      folders.length - 1 := by
    have hs := countP_split (fun f => (env.folderResult f).success) folders
    rw [List.countP_map]
    have : folders.countP
        ((fun r : ExtOutcome => r.success) ∘ env.folderResult) =
        folders.countP (fun f => (env.folderResult f).success) := rfl
    omega
  have hsucc : (extractWithSource2Viewer env folders).success = true := by
    simp only [extractWithSource2Viewer, hcount]
    simp only [decide_eq_true_eq]
    omega
  refine ⟨?_, hsucc, ?_, ?_⟩
  · simp [processVPKFiles, processBody, h1, h2, hlen, h4,
      List.filterMap_cons, List.filterMap_append, extractFolder,
      filterMap_extractFolder_extract, filterMap_extractFolder_comp]
  · simpa [extractWithSource2Viewer] using hcount
  · refine ⟨⟨(getRequiredVPKArchives env.vpkDir folders).length,
      env.extractedImages, 0, []⟩, ?_, rfl, rfl⟩
    simp [processVPKFiles, processBody, h1, h2, hlen, h4, hsucc]

theorem one_selector_failure_amended_witness :
    ((processVPKFiles envC5 ["a/", "b/"]).events.filterMap extractFolder =
        ["a/", "b/"]) ∧
      ((extractWithSource2Viewer envC5 ["a/", "b/"]).success = true) ∧
      ((extractWithSource2Viewer envC5 ["a/", "b/"]).details.countP
          (fun r => r.success) = (["a/", "b/"] : List String).length - 1) ∧
      ∃ r : RunResults,
        (processVPKFiles envC5 ["a/", "b/"]).outcome = Except.ok r ∧
          r.failed = 0 ∧ r.errors = [] :=
  one_selector_failure_amended envC5 ["a/", "b/"] rfl rfl (by decide) rfl
    (by decide) (by decide)

/-- Environment used for claim C6: both selectors fail in Source2Viewer. -/
def envC6 : Env :=
  ⟨⟨true, ""⟩, true, ⟨["a/x", "b/y"], [("a/x", ⟨some 0⟩), ("b/y", ⟨some 1⟩)]⟩,
    ⟨true, ""⟩, fun _ => ⟨false, "Process exited with code 1"⟩, 0⟩

theorem all_failure_error_list_counterexample :
    ((envC6.folderResult ("a/")).success = false) ∧
      ((envC6.folderResult ("b/")).success = false) ∧
      ((processVPKFiles envC6 ["a/", "b/"]).outcome =
        Except.ok ⟨0, 0, 1, []⟩) := by
  decide

/-- Claim C6 as amended: when every selector's decompile invocation fails, the
extraction stage reports overall failure (`No folders could be extracted`) and
the run result has zero extracted count — but its failed counter is the single
aggregate value 1 rather than N, its error list stays empty rather than
holding N entries, and `processVPKFiles` still returns the run result
normally. -/
theorem all_failure_amended (env : Env) (folders : List String)
    (h1 : env.dirResult.success = true) (h2 : env.vpkDirFound = true)
    (h3 : getRequiredVPKArchives env.vpkDir folders ≠ [])
    (h4 : env.batchResult.success = true)
    (h5 : ∀ f ∈ folders, (env.folderResult f).success = false) :
    ((extractWithSource2Viewer env folders).success = false) ∧
      ((extractWithSource2Viewer env folders).error =
        some ("No folders could be extracted")) ∧
      ((processVPKFiles env folders).outcome =
        Except.ok ⟨0, 0, 1, []⟩) := by
  have hlen : ¬ (getRequiredVPKArchives env.vpkDir folders).length = 0 := by
    simpa [List.length_eq_zero] using h3
  have hcount : (folders.map env.folderResult).countP
      (fun r => r.success) = 0 := by
    rw [List.countP_eq_zero]
    intro r hr
    rw [List.mem_map] at hr
    obtain ⟨f, hf, rfl⟩ := hr
    simp [h5 f hf]
  have hfail : (extractWithSource2Viewer env folders).success = false := by
    simp [extractWithSource2Viewer, hcount]
  refine ⟨hfail, ?_, ?_⟩
  · simp [extractWithSource2Viewer, hcount]
  · simp [processVPKFiles, processBody, h1, h2, hlen, h4, hfail]

theorem all_failure_amended_witness :
    ((extractWithSource2Viewer envC6 ["a/", "b/"]).success = false) ∧
      ((extractWithSource2Viewer envC6 ["a/", "b/"]).error =
        some ("No folders could be extracted")) ∧
      ((processVPKFiles envC6 ["a/", "b/"]).outcome =
        Except.ok ⟨0, 0, 1, []⟩) :=
  all_failure_amended envC6 ["a/", "b/"] rfl rfl (by decide) rfl (by decide)

/-- Environment used for claim C7: the batched shard fetch reports a disk-full
error text. -/
def envC7 : Env :=
  ⟨⟨true, ""⟩, true, ⟨["a/x"], [("a/x", ⟨some 0⟩)]⟩,
    ⟨false, "No space left on device"⟩, fun _ => ⟨true, ""⟩, 0⟩

theorem disk_exhaustion_counterexample :
    ((processVPKFiles envC7 ["a/"]).outcome =
        Except.error
          ("Failed to batch download VPK archives: No space left on device")) ∧
      (jsStartsWith
        ("Failed to batch download VPK archives: No space left on device")
        ("Disk space exhausted") = false) ∧
      ((processVPKFiles envC7 ["a/"]).events.filterMap extractFolder = []) ∧
      (classifyExtractError ("f") ("No space left on device") =
        some ("Disk space exhausted while extracting f. Consider running locally or increasing runner disk space.")) := by
  decide

/-- Claim C7 as amended: a failed batched shard fetch — whatever its error
text, including `No space left on device` — terminates the run immediately
with the generic batch-fetch error (the collaborator's text merely appended to
`Failed to batch download VPK archives: `), with no selector processed; the
orchestrator performs no disk-exhaustion detection on the collaborator's error
text (the repository's only such detection, `classifyExtractError`, lives in
the unused standalone `extractImagesFromVPK`). -/
theorem batch_failure_generic_error (env : Env) (folders : List String)
    (h1 : env.dirResult.success = true) (h2 : env.vpkDirFound = true)
    (h3 : getRequiredVPKArchives env.vpkDir folders ≠ [])
    (h4 : env.batchResult.success = false) :
    ((processVPKFiles env folders).outcome =
        Except.error ("Failed to batch download VPK archives: " ++
          env.batchResult.error)) ∧
      ((processVPKFiles env folders).events.filterMap extractFolder = []) := by
  have hlen : ¬ (getRequiredVPKArchives env.vpkDir folders).length = 0 := by
    simpa [List.length_eq_zero] using h3
  constructor
  · simp [processVPKFiles, processBody, h1, h2, hlen, h4]
  · simp [processVPKFiles, processBody, h1, h2, hlen, h4,
      List.filterMap_cons, extractFolder]

theorem batch_failure_generic_error_witness :
    ((processVPKFiles envC7 ["a/"]).outcome =
        Except.error ("Failed to batch download VPK archives: " ++
          envC7.batchResult.error)) ∧
      ((processVPKFiles envC7 ["a/"]).events.filterMap extractFolder = []) :=
  batch_failure_generic_error envC7 ["a/"] rfl rfl (by decide) rfl

lemma ddLoop_attempts_le (outcome : Nat → Bool) (M : Nat) :
    ∀ fuel, (ddLoop outcome M fuel).attempts ≤ fuel := by
  intro fuel
  induction fuel with
  | zero => simp [ddLoop]
  | succ f ih =>
    rw [ddLoop]
    split
    · simp
    · split
      · simpa using Nat.succ_le_succ ih
      · simp

lemma batch_count_le_one (env : Env) (folders : List String) :
    (processVPKFiles env folders).events.countP isBatchCall ≤ 1 := by
  simp only [processVPKFiles, processBody]
  split
  · split
    · split
      · simp [isBatchCall, List.countP_cons]
      · split
        · simp [isBatchCall, List.countP_cons, List.countP_append,
            countP_isBatchCall_extract]
        · simp [isBatchCall, List.countP_cons]
    · simp [isBatchCall, List.countP_cons]
  · simp [isBatchCall, List.countP_cons]

/-- Claim C8: with the configured 3 download attempts, at most 3 attempts are
made; the wait performed after the k-th failed attempt (the i-th recorded
wait, i = k - 1) is exactly `min(30000 * 2 ^ (k - 1), 120000)` milliseconds;
and the caller orchestrator performs no retry of its own: its trace never
holds more than one batched fetch. -/
theorem retry_backoff_policy (outcome : Nat → Bool) (env : Env)
    (folders : List String) :
    ((runDepotDownloader outcome 3).attempts ≤ 3) ∧
      ((runDepotDownloader outcome 3).waits =
        (List.range (runDepotDownloader outcome 3).waits.length).map
          (fun i => min (30000 * 2 ^ i) 120000)) ∧
      ((processVPKFiles env folders).events.countP isBatchCall ≤ 1) := by
  refine ⟨ddLoop_attempts_le outcome 3 3, ?_, batch_count_le_one env folders⟩
  cases h1 : outcome 1 <;> cases h2 : outcome 2 <;> cases h3 : outcome 3 <;>
    simp [runDepotDownloader, ddLoop, h1, h2, h3, backoffTime,
      List.range_succ]

lemma getLast_append_single {α : Type} (l : List α) (a : α) :
    (l ++ [a]).getLast? = some a := by
  rw [List.getLast?_concat]

lemma body_no_cleanup (env : Env) (folders : List String) :
    (processBody env folders).2.countP isCleanup = 0 := by
  simp only [processBody]
  split
  · split
    · split
      · simp [isCleanup, List.countP_cons]
      · split
        · simp [isCleanup, List.countP_cons, List.countP_append,
            countP_isCleanup_extract]
        · simp [isCleanup, List.countP_cons]
    · simp [isCleanup, List.countP_cons]
  · simp [isCleanup, List.countP_cons]

/-- Claim C9: on every exit of `processVPKFiles` — normal return, early return
with an empty plan, or propagated error — the scratch-directory cleanup of the
`finally` block is the last action of the run, and it runs exactly once. -/
theorem cleanup_always_runs (env : Env) (folders : List String) :
    ((processVPKFiles env folders).events.getLast? = some Event.cleanup) ∧
      ((processVPKFiles env folders).events.countP isCleanup = 1) := by
  constructor
  · simp only [processVPKFiles]
    exact getLast_append_single _ _
  · simp only [processVPKFiles]
    rw [List.countP_append, body_no_cleanup]
    simp [isCleanup, List.countP_cons]

lemma matchPatternAt_digits (pat : ManifestPattern) (s ds : List Char)
    (h : matchPatternAt pat s = some ds) :
    ds ≠ [] ∧ ds.all Char.isDigit = true := by
  rw [matchPatternAt] at h
  rcases hpre : ciDrop pat.pre s with _ | r1
  · rw [hpre] at h; cases h
  · rw [hpre] at h
    simp only at h
    by_cases he :
        ((if pat.skipWs then r1.dropWhile isWsChar else r1).takeWhile
          Char.isDigit).isEmpty
    · rw [if_pos he] at h; cases h
    · rw [if_neg he] at h
      rcases hpost : ciDrop pat.post
          ((if pat.skipWs then r1.dropWhile isWsChar else r1).dropWhile
            Char.isDigit) with _ | r3
      · rw [hpost] at h; cases h
      · rw [hpost] at h
        cases h
        refine ⟨?_, ?_⟩
        · intro hnil
          rw [hnil] at he
          exact he rfl
        · rw [List.all_eq_true]
          intro c hc
          exact List.mem_takeWhile_imp hc

lemma searchPattern_digits (pat : ManifestPattern) :
    ∀ s ds, searchPattern pat s = some ds →
      ds ≠ [] ∧ ds.all Char.isDigit = true := by
  intro s
  induction s with
  | nil =>
    intro ds h
    rw [searchPattern] at h
    exact matchPatternAt_digits pat [] ds h
  | cons c cs ih =>
    intro ds h
    rw [searchPattern] at h
    rcases hm : matchPatternAt pat (c :: cs) with _ | ds2
    · rw [hm] at h
      exact ih ds h
    · rw [hm] at h
      cases h
      exact matchPatternAt_digits pat (c :: cs) _ hm

lemma firstManifestMatch_digits :
    ∀ (ps : List ManifestPattern) (s ds : List Char),
      firstManifestMatch ps s = some ds →
        ds ≠ [] ∧ ds.all Char.isDigit = true := by
  intro ps
  induction ps with
  | nil => intro s ds h; cases h
  | cons p rest ih =>
    intro s ds h
    rw [firstManifestMatch] at h
    rcases hm : searchPattern p s with _ | ds2
    · rw [hm] at h
      exact ih s ds h
    · rw [hm] at h
      cases h
      exact searchPattern_digits p s _ hm

/-- Claim C10: whenever `getLatestManifestId` returns normally, the value is a
non-empty all-digit string (a `(\d+)` capture of one of the five patterns);
when the underlying command failed, or no pattern matches its output, it
throws instead — it never returns a non-digit value. -/
theorem manifest_id_digits (result : CmdResult) :
    (∀ v, getLatestManifestId result = Except.ok v →
        v.data ≠ [] ∧ v.data.all Char.isDigit = true) ∧
      (result.success = false → (getLatestManifestId result).isOk = false) ∧
      (firstManifestMatch manifestPatterns result.output.data = none →
        (getLatestManifestId result).isOk = false) := by
  refine ⟨?_, ?_, ?_⟩
  · intro v hv
    rw [getLatestManifestId] at hv
    by_cases hs : result.success
    · rw [if_pos hs] at hv
      rcases hm : firstManifestMatch manifestPatterns result.output.data
        with _ | ds
      · rw [hm] at hv; cases hv
      · rw [hm] at hv
        cases hv
        exact firstManifestMatch_digits manifestPatterns
          result.output.data ds hm
    · rw [if_neg hs] at hv; cases hv
  · intro hs
    rw [getLatestManifestId, if_neg (by simp [hs])]
    rfl
  · intro hm
    rw [getLatestManifestId]
    by_cases hs : result.success
    · rw [if_pos hs, hm]
      rfl
    · rw [if_neg hs]
      rfl

theorem manifest_id_digits_witness :
    getLatestManifestId ⟨true, "Manifest 123 (07/07/2025 21:24:46)", none⟩ =
        Except.ok ("123") ∧
      (("123" : String).data ≠ [] ∧
        ("123" : String).data.all Char.isDigit = true) :=
  ⟨by decide,
    (manifest_id_digits
      ⟨true, "Manifest 123 (07/07/2025 21:24:46)", none⟩).1 ("123")
      (by decide)⟩
